import Mathlib

/-!
Verification development for the CosmoCorral streaming monitoring pipeline
(server/pipeline.py): multi-window aggregation, per-signal adaptive
baselines with z-scores, anomaly detection, and the compound rule engine
that produces the escalation decision.

Numeric values (Python floats/ints) are modelled as rationals; dictionary
state (Python defaultdict) is modelled as total functions from string keys
with the defaultdict's default value.  Message strings that the source
builds with numeric interpolation are kept as fixed texts, since no
property depends on their contents.
-/

/-- One telemetry package.  Fields mirror the nested dictionary groups read
by the pipeline; a missing field in the source defaults to the neutral
value noted in each default. -/
structure Package where
  timestamp : ℚ
  cpu_usage : ℚ := 0
  memory_usage : ℚ := 0
  focus_score : ℚ := 1/2
  bytes_sent : ℚ := 0
  bytes_received : ℚ := 0
  keystroke_rhythm_variance : ℚ := 0
  mouse_idle_duration : ℚ := 0
  app_switches : ℚ := 0
  deriving DecidableEq, Repr

/-- Static threshold table ANOMALY_THRESHOLDS from the source. -/
structure Thresholds where
  cpu_usage_high : ℚ
  memory_usage_high : ℚ
  keystroke_rhythm_variance_high : ℚ
  focus_score_low : ℚ
  app_switches_per_minute_high : ℚ
  network_bytes_30s_high : ℚ

def ANOMALY_THRESHOLDS : Thresholds :=
  { cpu_usage_high := 90
    memory_usage_high := 85
    keystroke_rhythm_variance_high := 3/4
    focus_score_low := 3/10
    app_switches_per_minute_high := 15
    network_bytes_30s_high := 10 * 1024 * 1024 }

/-- Configuration of one named rule, as in the RULES table. -/
structure RuleConfig where
  enabled : Bool
  severity : String
  description : String
  escalate_to_gemini : Bool

/-- The RULES table of the source, as a lookup by rule id. -/
def RULES (rule_id : String) : RuleConfig :=
  if rule_id = "resource_spike" then
    ⟨true, "alert", "Sudden spike in CPU/Memory/Network usage", true⟩
  else if rule_id = "distraction_burst" then
    ⟨true, "warning", "Excessive app switching with low focus", true⟩
  else if rule_id = "pause_inconsistent" then
    ⟨true, "warning", "Erratic keystroke/mouse pattern after pause", true⟩
  else if rule_id = "network_anomaly" then
    ⟨true, "critical", "Unusual network activity detected", true⟩
  else if rule_id = "focus_collapse" then
    ⟨true, "alert", "Sudden drop in focus score", false⟩
  else
    ⟨true, "critical", "User activity inconsistent with physical possibilities", true⟩

/-- Pointwise update of a string-keyed map, the effect of one dictionary
assignment st[k] = b. -/
def updateFun {β : Type} (st : String → β) (k : String) (b : β) : String → β :=
  fun q => if q = k then b else st q

/-- One per-(session, signal) baseline entry: mean, std_dev, count. -/
structure Baseline where
  mean : ℚ
  std_dev : ℚ
  count : ℕ
  deriving DecidableEq, Repr

/-- The AnomalyDetector baselines dictionary: defaultdict with default
mean = 0, std_dev = 1, count = 0, keyed by "session_id:signal_name". -/
def Baselines : Type := String → Baseline

def initBaselines : Baselines := fun _ => { mean := 0, std_dev := 1, count := 0 }

/-- AnomalyDetector.compute_z_score.  The source first repairs a zero
std_dev in place (baseline["std_dev"] = 1) and then divides by the stored
std_dev; the returned pair is (updated dictionary state, z-score). -/
def compute_z_score (st : Baselines) (session_id signal_name : String) (value : ℚ) :
    Baselines × ℚ :=
  let key := session_id ++ ":" ++ signal_name
  let st1 := if (st key).std_dev = 0
    then updateFun st key { st key with std_dev := 1 } else st
  (st1, (value - (st1 key).mean) / (st1 key).std_dev)

/-- The update of one Baseline record by one observed value, as performed
by AnomalyDetector.update_baseline on the entry it addresses: first
observation stores the value with count 1, later observations apply the
exponential moving average with alpha = 0.1 and increment count. -/
def baselineStep (baseline : Baseline) (value : ℚ) : Baseline :=
  if baseline.count = 0 then
    { baseline with mean := value, count := 1 }
  else
    { baseline with
        mean := (1/10) * value + (1 - 1/10) * baseline.mean,
        count := baseline.count + 1 }

/-- AnomalyDetector.update_baseline on the whole dictionary state. -/
def update_baseline (st : Baselines) (session_id signal_name : String) (value : ℚ) :
    Baselines :=
  let key := session_id ++ ":" ++ signal_name
  updateFun st key (baselineStep (st key) value)

/-- States of the baselines dictionary reachable from the fresh detector
through any sequence of update_baseline and compute_z_score calls. -/
inductive ReachableB : Baselines → Prop
  | init : ReachableB initBaselines
  | update (st : Baselines) (sid sig : String) (v : ℚ) :
      ReachableB st → ReachableB (update_baseline st sid sig v)
  | zscore (st : Baselines) (sid sig : String) (v : ℚ) :
      ReachableB st → ReachableB (compute_z_score st sid sig v).1

/-- One detection result, mirroring the anomaly dictionaries built by
AnomalyDetector.detect_anomalies.  The reason texts are kept fixed
(numeric interpolation elided). -/
structure Anomaly where
  signal_name : String
  modality : String
  raw_value : ℚ
  baseline_expected : ℚ
  z_score : ℚ
  percentile_anomaly : ℚ
  threshold_breached : Bool
  breach_magnitude : ℚ
  reason : String
  severity : String
  deriving DecidableEq, Repr

/-- The CPU block of detect_anomalies: optional anomaly, then the
unconditional baseline update. -/
def detectCpu (st : Baselines) (session_id : String) (p : Package) :
    Baselines × List Anomaly :=
  let cpu := p.cpu_usage
  let r :=
    if ANOMALY_THRESHOLDS.cpu_usage_high < cpu then
      let rz := compute_z_score st session_id "cpu_usage" cpu
      (rz.1,
        [{ signal_name := "cpu_usage"
           modality := "system"
           raw_value := cpu
           baseline_expected := (rz.1 (session_id ++ ":" ++ "cpu_usage")).mean
           z_score := rz.2
           percentile_anomaly := min 1 (|rz.2| / 3)
           threshold_breached := true
           breach_magnitude := cpu - ANOMALY_THRESHOLDS.cpu_usage_high
           reason := "CPU usage exceeds threshold"
           severity := if 95 < cpu then "high" else "medium" }])
    else (st, [])
  (update_baseline r.1 session_id "cpu_usage" cpu, r.2)

/-- The focus-score block of detect_anomalies. -/
def detectFocus (st : Baselines) (session_id : String) (p : Package) :
    Baselines × List Anomaly :=
  let focus := p.focus_score
  let r :=
    if focus < ANOMALY_THRESHOLDS.focus_score_low then
      let rz := compute_z_score st session_id "focus_score" focus
      (rz.1,
        [{ signal_name := "focus_score"
           modality := "focus"
           raw_value := focus
           baseline_expected := (rz.1 (session_id ++ ":" ++ "focus_score")).mean
           z_score := rz.2
           percentile_anomaly := 1 - focus
           threshold_breached := true
           breach_magnitude := ANOMALY_THRESHOLDS.focus_score_low - focus
           reason := "Focus score drops below threshold"
           severity := if focus < 1/5 then "alert" else "warning" }])
    else (st, [])
  (update_baseline r.1 session_id "focus_score" focus, r.2)

/-- The network-activity block of detect_anomalies. -/
def detectNetwork (st : Baselines) (session_id : String) (p : Package) :
    Baselines × List Anomaly :=
  let net_total := p.bytes_sent + p.bytes_received
  let r :=
    if ANOMALY_THRESHOLDS.network_bytes_30s_high < net_total then
      let rz := compute_z_score st session_id "network_activity" net_total
      (rz.1,
        [{ signal_name := "network_activity"
           modality := "network"
           raw_value := net_total
           baseline_expected := (st (session_id ++ ":" ++ "network_activity")).mean
           z_score := rz.2
           percentile_anomaly := min 1 (net_total / (50 * 1024 * 1024))
           threshold_breached := true
           breach_magnitude := net_total - ANOMALY_THRESHOLDS.network_bytes_30s_high
           reason := "Network activity exceeds baseline"
           severity := "critical" }])
    else (st, [])
  (update_baseline r.1 session_id "network_activity" net_total, r.2)

/-- The keystroke-rhythm block of detect_anomalies. -/
def detectKeystroke (st : Baselines) (session_id : String) (p : Package) :
    Baselines × List Anomaly :=
  let keystroke_var := p.keystroke_rhythm_variance
  let r :=
    if ANOMALY_THRESHOLDS.keystroke_rhythm_variance_high < keystroke_var then
      let rz := compute_z_score st session_id "keystroke_rhythm" keystroke_var
      (rz.1,
        [{ signal_name := "keystroke_rhythm"
           modality := "input"
           raw_value := keystroke_var
           baseline_expected := (st (session_id ++ ":" ++ "keystroke_rhythm")).mean
           z_score := rz.2
           percentile_anomaly := keystroke_var
           threshold_breached := true
           breach_magnitude := keystroke_var - ANOMALY_THRESHOLDS.keystroke_rhythm_variance_high
           reason := "Keystroke rhythm highly erratic (possible impersonation)"
           severity := "high" }])
    else (st, [])
  (update_baseline r.1 session_id "keystroke_rhythm" keystroke_var, r.2)

/-- AnomalyDetector.detect_anomalies: the four signal blocks in source
order, threading the baselines dictionary, anomalies concatenated in
detection order (cpu, focus, network, keystroke). -/
def detect_anomalies (st : Baselines) (session_id : String) (p : Package) :
    Baselines × List Anomaly :=
  let r1 := detectCpu st session_id p
  let r2 := detectFocus r1.1 session_id p
  let r3 := detectNetwork r2.1 session_id p
  let r4 := detectKeystroke r3.1 session_id p
  (r4.1, r1.2 ++ r2.2 ++ r3.2 ++ r4.2)

/-- One fired rule, mirroring the triggered-rule dictionaries built by
RulesEngine.evaluate. -/
structure TriggeredRule where
  rule_id : String
  rule_name : String
  description : String
  severity : String
  evidence : List String
  deriving DecidableEq, Repr

/-- The triggered-rule list built by RulesEngine.evaluate, in source
order: resource spike, distraction burst, pause inconsistency, network
anomaly.  Evidence for the distraction and pause rules is kept as fixed
texts (numeric interpolation elided). -/
def triggeredRulesOf (package : Package) (anomalies : List Anomaly) :
    List TriggeredRule :=
  let rules1 : List TriggeredRule :=
    if anomalies.any (fun a =>
        a.signal_name = "cpu_usage" || a.signal_name = "network_activity") then
      [{ rule_id := "resource_spike"
         rule_name := "Resource Spike"
         description := (RULES "resource_spike").description
         severity := (RULES "resource_spike").severity
         evidence := (anomalies.filter (fun a =>
            a.signal_name = "cpu_usage" || a.signal_name = "network_activity")).map
            (fun a => a.reason) }]
    else []
  let app_switches := package.app_switches
  let rules2 : List TriggeredRule :=
    if ANOMALY_THRESHOLDS.app_switches_per_minute_high < app_switches then
      if package.focus_score < ANOMALY_THRESHOLDS.focus_score_low then
        [{ rule_id := "distraction_burst"
           rule_name := "Distraction Burst"
           description := (RULES "distraction_burst").description
           severity := (RULES "distraction_burst").severity
           evidence := ["App switches", "Focus score"] }]
      else []
    else []
  let keystroke_var := package.keystroke_rhythm_variance
  let mouse_idle := package.mouse_idle_duration
  let rules3 : List TriggeredRule :=
    if ANOMALY_THRESHOLDS.keystroke_rhythm_variance_high < keystroke_var ∧ 20 < mouse_idle then
      [{ rule_id := "pause_inconsistent"
         rule_name := "Pause Inconsistency"
         description := (RULES "pause_inconsistent").description
         severity := (RULES "pause_inconsistent").severity
         evidence := ["Keystroke variance", "Mouse idle"] }]
    else []
  let rules4 : List TriggeredRule :=
    if anomalies.any (fun a =>
        a.signal_name = "network_activity" && a.severity = "critical") then
      [{ rule_id := "network_anomaly"
         rule_name := "Network Anomaly"
         description := (RULES "network_anomaly").description
         severity := (RULES "network_anomaly").severity
         evidence := (anomalies.filter (fun a =>
            a.signal_name = "network_activity")).map (fun a => a.reason) }]
    else []
  rules1 ++ rules2 ++ rules3 ++ rules4

/-- The escalation decision computed at the end of RulesEngine.evaluate
from the triggered rules. -/
def shouldEscalate (triggered_rules : List TriggeredRule) : Bool :=
  triggered_rules.any (fun rule =>
    rule.severity = "alert" || rule.severity = "critical")

/-- RulesEngine.evaluate: returns (triggered_rules, should_escalate).
The session_id and device_id parameters are accepted, as in the source,
but not read. -/
def evaluate (_session_id _device_id : String) (package : Package)
    (anomalies : List Anomaly) : List TriggeredRule × Bool :=
  let triggered_rules := triggeredRulesOf package anomalies
  (triggered_rules, shouldEscalate triggered_rules)

/-- One sliding time window: configured duration plus the buffer of
(timestamp, package) entries, oldest first. -/
structure AggregationWindow where
  window_size : ℚ
  buffer : List (ℚ × Package)
  deriving DecidableEq, Repr

/-- AggregationWindow.add: append the new entry, then pop entries from
the front while the front timestamp is older than timestamp − window
size (the source while loop, which stops at the first surviving entry). -/
def AggregationWindow.add (w : AggregationWindow) (timestamp : ℚ) (package : Package) :
    AggregationWindow :=
  let buffer1 := w.buffer ++ [(timestamp, package)]
  let cutoff := timestamp - w.window_size
  { w with buffer := buffer1.dropWhile (fun e => decide (e.1 < cutoff)) }

/-- The AggregationEngine state: three defaultdict maps from the
"session_id:device_id" key to windows of 30, 60 and 300 seconds. -/
structure AggregationEngineState where
  windows_30s : String → AggregationWindow
  windows_60s : String → AggregationWindow
  windows_5m : String → AggregationWindow

def initAggregationEngine : AggregationEngineState :=
  { windows_30s := fun _ => { window_size := 30, buffer := [] }
    windows_60s := fun _ => { window_size := 60, buffer := [] }
    windows_5m := fun _ => { window_size := 300, buffer := [] } }

/-- AggregationEngine.ingest: add the package to all three windows of the
"session_id:device_id" key, at the package timestamp. -/
def AggregationEngineState.ingest (st : AggregationEngineState)
    (session_id device_id : String) (package : Package) : AggregationEngineState :=
  let key := session_id ++ ":" ++ device_id
  { windows_30s := updateFun st.windows_30s key
      ((st.windows_30s key).add package.timestamp package)
    windows_60s := updateFun st.windows_60s key
      ((st.windows_60s key).add package.timestamp package)
    windows_5m := updateFun st.windows_5m key
      ((st.windows_5m key).add package.timestamp package) }

/-- The mutable state of the pipeline that per-sample processing touches:
the aggregation windows and the anomaly-detector baselines. -/
structure PipelineState where
  agg_engine : AggregationEngineState
  anomaly_detector : Baselines

def initPipelineState : PipelineState :=
  { agg_engine := initAggregationEngine, anomaly_detector := initBaselines }

/-- The per-sample core of MonitoringPipeline.process_package: ingest into
the aggregation windows, detect anomalies (updating baselines), evaluate
rules.  Returns the new state with the anomalies, triggered rules and
escalation decision. -/
def processPackageCore (st : PipelineState) (session_id device_id : String)
    (package : Package) : PipelineState × List Anomaly × List TriggeredRule × Bool :=
  let agg := st.agg_engine.ingest session_id device_id package
  let rd := detect_anomalies st.anomaly_detector session_id package
  let re := evaluate session_id device_id package rd.2
  ({ agg_engine := agg, anomaly_detector := rd.1 }, rd.2, re.1, re.2)

/-- statistics.mean of a list of rationals. -/
def statisticsMean (l : List ℚ) : ℚ := l.sum / l.length

/-- The composite_anomaly_score block of the flagged report built by
MonitoringPipeline.process_package: overall score is the mean of the
percentile_anomaly values (0.0 for an empty anomaly list), and
dominant_anomalies lists the signal names of the first three anomalies
(the source slice anomalies[:3]). -/
structure CompositeAnomalyScore where
  overall_score : ℚ
  dominant_anomalies : List String
  deriving DecidableEq, Repr

def composite_anomaly_score (anomalies : List Anomaly) : CompositeAnomalyScore :=
  { overall_score :=
      if anomalies = [] then 0
      else statisticsMean (anomalies.map (fun a => a.percentile_anomaly))
    dominant_anomalies := (anomalies.take 3).map (fun a => a.signal_name) }

/-- Modelled from the spec: the spec says the dominant anomalies of the
escalation payload are the top 3 anomalies ranked by percentile_anomaly
score.  Insertion into a list already ranked by descending score. -/
def insertRanked (a : Anomaly) : List Anomaly → List Anomaly
  | [] => [a]
  | b :: l =>
    if b.percentile_anomaly < a.percentile_anomaly then a :: b :: l
    else b :: insertRanked a l

/-- Modelled from the spec: all anomalies ranked by descending
percentile_anomaly score. -/
def rankedByScore (l : List Anomaly) : List Anomaly := l.foldr insertRanked []

/-- Modelled from the spec: signal names of the top 3 anomalies ranked by
percentile_anomaly score. -/
def dominantTop3Spec (l : List Anomaly) : List String :=
  ((rankedByScore l).take 3).map (fun a => a.signal_name)

lemma updateFun_apply_eq {β : Type} (st : String → β) (k : String) (b : β) :
    updateFun st k b k = b := by
  simp [updateFun]

lemma updateFun_apply_ne {β : Type} (st : String → β) (k q : String) (b : β)
    (h : q ≠ k) : updateFun st k b q = st q := by
  simp [updateFun, h]

lemma baselineStep_std_dev (b : Baseline) (v : ℚ) :
    (baselineStep b v).std_dev = b.std_dev := by
  unfold baselineStep
  split <;> rfl

lemma update_baseline_apply_eq (st : Baselines) (sid sig : String) (v : ℚ) :
    update_baseline st sid sig v (sid ++ ":" ++ sig) =
      baselineStep (st (sid ++ ":" ++ sig)) v := by
  unfold update_baseline
  exact updateFun_apply_eq ..

lemma update_baseline_apply_ne (st : Baselines) (sid sig : String) (v : ℚ)
    (k : String) (h : k ≠ sid ++ ":" ++ sig) :
    update_baseline st sid sig v k = st k := by
  unfold update_baseline
  exact updateFun_apply_ne _ _ _ _ h

lemma update_baseline_std_dev (st : Baselines) (sid sig : String) (v : ℚ)
    (k : String) : (update_baseline st sid sig v k).std_dev = (st k).std_dev := by
  unfold update_baseline updateFun
  split
  · next h => rw [h, baselineStep_std_dev]
  · rfl

lemma compute_z_score_fst_std_dev (st : Baselines) (sid sig : String) (v : ℚ)
    (k : String) :
    ((compute_z_score st sid sig v).1 k).std_dev = 1 ∨
    ((compute_z_score st sid sig v).1 k).std_dev = (st k).std_dev := by
  unfold compute_z_score updateFun
  dsimp only
  split
  · dsimp only
    split
    · left; rfl
    · right; rfl
  · right; rfl

lemma compute_z_score_fst_of_std_dev_one (st : Baselines) (sid sig : String)
    (v : ℚ) (h : (st (sid ++ ":" ++ sig)).std_dev = 1) :
    (compute_z_score st sid sig v).1 = st := by
  unfold compute_z_score
  dsimp only
  rw [if_neg (by rw [h]; norm_num)]

lemma reachable_std_dev_one (st : Baselines) (h : ReachableB st) :
    ∀ k, (st k).std_dev = 1 := by
  induction h with
  | init => intro k; rfl
  | update st sid sig v _ ih =>
    intro k
    rw [update_baseline_std_dev]
    exact ih k
  | zscore st sid sig v _ ih =>
    intro k
    rcases compute_z_score_fst_std_dev st sid sig v k with h1 | h1
    · exact h1
    · rw [h1]; exact ih k

/-- C6: update_baseline on the first observed value (count = 0) stores
mean = value with count = 1; every subsequent update stores
mean = 0.1 * value + 0.9 * previous mean and increments count. -/
theorem update_baseline_ema (st : Baselines) (sid sig : String) (v : ℚ) :
    ((st (sid ++ ":" ++ sig)).count = 0 →
      (update_baseline st sid sig v (sid ++ ":" ++ sig)).mean = v ∧
      (update_baseline st sid sig v (sid ++ ":" ++ sig)).count = 1) ∧
    ((st (sid ++ ":" ++ sig)).count ≠ 0 →
      (update_baseline st sid sig v (sid ++ ":" ++ sig)).mean =
        (1/10) * v + (9/10) * (st (sid ++ ":" ++ sig)).mean ∧
      (update_baseline st sid sig v (sid ++ ":" ++ sig)).count =
        (st (sid ++ ":" ++ sig)).count + 1) := by
  rw [update_baseline_apply_eq]
  unfold baselineStep
  constructor
  · intro h
    rw [if_pos h]
    exact ⟨rfl, rfl⟩
  · intro h
    rw [if_neg h]
    refine ⟨?_, rfl⟩
    norm_num

/-- Witness for update_baseline_ema: both branches at concrete inputs.
The first update of the fresh detector stores 5; updating the resulting
state with 7 yields 1/10 * 7 + 9/10 * 5 = 52/10. -/
theorem update_baseline_ema_witness :
    ((initBaselines ("s" ++ ":" ++ "cpu_usage")).count = 0 ∧
      (update_baseline initBaselines "s" "cpu_usage" (5:ℚ) ("s" ++ ":" ++ "cpu_usage")).mean = 5) ∧
    ((update_baseline initBaselines "s" "cpu_usage" (5:ℚ) ("s" ++ ":" ++ "cpu_usage")).count ≠ 0 ∧
      (update_baseline (update_baseline initBaselines "s" "cpu_usage" (5:ℚ)) "s" "cpu_usage" (7:ℚ)
          ("s" ++ ":" ++ "cpu_usage")).mean =
        (1/10) * 7 + (9/10) *
          (update_baseline initBaselines "s" "cpu_usage" (5:ℚ) ("s" ++ ":" ++ "cpu_usage")).mean) := by
  refine ⟨⟨by decide, ?_⟩, ⟨by decide, ?_⟩⟩
  · exact ((update_baseline_ema initBaselines "s" "cpu_usage" 5).1 (by decide)).1
  · exact ((update_baseline_ema (update_baseline initBaselines "s" "cpu_usage" 5)
      "s" "cpu_usage" 7).2 (by decide)).1

/-- C10: update_baseline never changes any std_dev; in every state
reachable through update_baseline and compute_z_score calls every
baseline std_dev equals 1, and compute_z_score therefore returns exactly
value minus the stored mean. -/
theorem std_dev_always_one :
    (∀ (st : Baselines) (sid sig : String) (v : ℚ) (k : String),
      (update_baseline st sid sig v k).std_dev = (st k).std_dev) ∧
    (∀ st : Baselines, ReachableB st → ∀ k, (st k).std_dev = 1) ∧
    (∀ st : Baselines, ReachableB st → ∀ (sid sig : String) (v : ℚ),
      (compute_z_score st sid sig v).2 = v - (st (sid ++ ":" ++ sig)).mean) := by
  refine ⟨update_baseline_std_dev, reachable_std_dev_one, ?_⟩
  intro st h sid sig v
  have hone := reachable_std_dev_one st h (sid ++ ":" ++ sig)
  unfold compute_z_score
  dsimp only
  rw [if_neg (by rw [hone]; norm_num), hone]
  norm_num

/-- Witness for std_dev_always_one at the fresh detector state and
concrete session, signal and value. -/
theorem std_dev_always_one_witness :
    (update_baseline initBaselines "s" "cpu_usage" (5:ℚ) ("s" ++ ":" ++ "cpu_usage")).std_dev =
      (initBaselines ("s" ++ ":" ++ "cpu_usage")).std_dev ∧
    (initBaselines ("s" ++ ":" ++ "cpu_usage")).std_dev = 1 ∧
    (compute_z_score initBaselines "s" "cpu_usage" (5:ℚ)).2 =
      5 - (initBaselines ("s" ++ ":" ++ "cpu_usage")).mean :=
  ⟨std_dev_always_one.1 initBaselines "s" "cpu_usage" 5 ("s" ++ ":" ++ "cpu_usage"),
   std_dev_always_one.2.1 initBaselines ReachableB.init ("s" ++ ":" ++ "cpu_usage"),
   std_dev_always_one.2.2 initBaselines ReachableB.init "s" "cpu_usage" 5⟩

/-- C4: the divisor used by compute_z_score is never zero (the source
repairs a zero std_dev to 1 before dividing), in every reachable state
the returned z-score is (value - mean) / max(std_dev, 1) for the stored
baseline, and on a missing (fresh) baseline the raw value is the
z-score. -/
theorem zscore_floor :
    (∀ (st : Baselines) (sid sig : String) (v : ℚ),
      ((compute_z_score st sid sig v).1 (sid ++ ":" ++ sig)).std_dev ≠ 0) ∧
    (∀ st : Baselines, ReachableB st → ∀ (sid sig : String) (v : ℚ),
      (compute_z_score st sid sig v).2 =
        (v - (st (sid ++ ":" ++ sig)).mean) / max (st (sid ++ ":" ++ sig)).std_dev 1) ∧
    (∀ (sid sig : String) (v : ℚ), (compute_z_score initBaselines sid sig v).2 = v) := by
  refine ⟨?_, ?_, ?_⟩
  · intro st sid sig v
    unfold compute_z_score
    dsimp only
    split
    · rw [updateFun_apply_eq]
      norm_num
    · next h => exact h
  · intro st h sid sig v
    have hone := reachable_std_dev_one st h (sid ++ ":" ++ sig)
    unfold compute_z_score
    dsimp only
    rw [if_neg (by rw [hone]; norm_num), hone]
    norm_num
  · intro sid sig v
    unfold compute_z_score
    dsimp only
    rw [if_neg (by norm_num [initBaselines])]
    show (v - (initBaselines (sid ++ ":" ++ sig)).mean) / (initBaselines (sid ++ ":" ++ sig)).std_dev = v
    simp [initBaselines]

/-- Witness for zscore_floor at the fresh detector state and concrete
inputs. -/
theorem zscore_floor_witness :
    ((compute_z_score initBaselines "s" "cpu_usage" (5:ℚ)).1 ("s" ++ ":" ++ "cpu_usage")).std_dev ≠ 0 ∧
    (compute_z_score initBaselines "s" "cpu_usage" (5:ℚ)).2 =
      (5 - (initBaselines ("s" ++ ":" ++ "cpu_usage")).mean) /
        max (initBaselines ("s" ++ ":" ++ "cpu_usage")).std_dev 1 ∧
    (compute_z_score initBaselines "s" "cpu_usage" (5:ℚ)).2 = 5 :=
  ⟨zscore_floor.1 initBaselines "s" "cpu_usage" 5,
   zscore_floor.2.1 initBaselines ReachableB.init "s" "cpu_usage" 5,
   zscore_floor.2.2 "s" "cpu_usage" 5⟩

/-- n repeated update_baseline calls with the same session, signal and
constant value. -/
def iterUpdate (st : Baselines) (sid sig : String) (v : ℚ) : ℕ → Baselines
  | 0 => st
  | n + 1 => update_baseline (iterUpdate st sid sig v n) sid sig v

lemma baselineStep_dist (b : Baseline) (v : ℚ) :
    |(baselineStep b v).mean - v| ≤ (9/10) * |b.mean - v| := by
  unfold baselineStep
  split
  · dsimp only
    rw [sub_self, abs_zero]
    positivity
  · dsimp only
    have hrw : (1/10) * v + (1 - 1/10) * b.mean - v = (9/10) * (b.mean - v) := by ring
    rw [hrw, abs_mul, abs_of_pos (by norm_num : (0:ℚ) < 9/10)]

lemma iterUpdate_dist_step (st : Baselines) (sid sig : String) (v : ℚ) (n : ℕ) :
    |(iterUpdate st sid sig v (n + 1) (sid ++ ":" ++ sig)).mean - v| ≤
      (9/10) * |(iterUpdate st sid sig v n (sid ++ ":" ++ sig)).mean - v| := by
  show |(update_baseline (iterUpdate st sid sig v n) sid sig v (sid ++ ":" ++ sig)).mean - v| ≤ _
  rw [update_baseline_apply_eq]
  exact baselineStep_dist _ v

lemma iterUpdate_dist_anti (st : Baselines) (sid sig : String) (v : ℚ) :
    ∀ m n : ℕ, m ≤ n →
      |(iterUpdate st sid sig v n (sid ++ ":" ++ sig)).mean - v| ≤
      |(iterUpdate st sid sig v m (sid ++ ":" ++ sig)).mean - v| := by
  intro m n h
  induction n, h using Nat.le_induction with
  | base => exact le_refl _
  | succ n _ ih =>
    refine le_trans (le_trans (iterUpdate_dist_step st sid sig v n) ?_) ih
    have habs : (0:ℚ) ≤ |(iterUpdate st sid sig v n (sid ++ ":" ++ sig)).mean - v| :=
      abs_nonneg _
    linarith

lemma iterUpdate_dist_geom (st : Baselines) (sid sig : String) (v : ℚ) :
    ∀ n : ℕ, |(iterUpdate st sid sig v n (sid ++ ":" ++ sig)).mean - v| ≤
      (9/10) ^ n * |(st (sid ++ ":" ++ sig)).mean - v| := by
  intro n
  induction n with
  | zero => simp [iterUpdate]
  | succ n ih =>
    refine le_trans (iterUpdate_dist_step st sid sig v n) ?_
    calc (9/10) * |(iterUpdate st sid sig v n (sid ++ ":" ++ sig)).mean - v|
        ≤ (9/10) * ((9/10) ^ n * |(st (sid ++ ":" ++ sig)).mean - v|) := by
          have : (0:ℚ) ≤ 9/10 := by norm_num
          exact mul_le_mul_of_nonneg_left ih this
      _ = (9/10) ^ (n + 1) * |(st (sid ++ ":" ++ sig)).mean - v| := by ring

/-- C7: repeatedly updating a baseline with a constant value v makes the
stored mean approach v monotonically (the distance never increases at any
step) and become arbitrarily small after enough iterations. -/
theorem baseline_convergence (st : Baselines) (sid sig : String) (v : ℚ) :
    (∀ n : ℕ,
      |(iterUpdate st sid sig v (n + 1) (sid ++ ":" ++ sig)).mean - v| ≤
      |(iterUpdate st sid sig v n (sid ++ ":" ++ sig)).mean - v|) ∧
    (∀ ε : ℚ, 0 < ε → ∃ N : ℕ, ∀ n : ℕ, N ≤ n →
      |(iterUpdate st sid sig v n (sid ++ ":" ++ sig)).mean - v| < ε) := by
  constructor
  · intro n
    exact iterUpdate_dist_anti st sid sig v n (n + 1) (Nat.le_succ n)
  · intro ε hε
    rcases eq_or_lt_of_le (abs_nonneg ((st (sid ++ ":" ++ sig)).mean - v)) with h0 | h0
    · refine ⟨0, fun n _ => lt_of_le_of_lt ?_ hε⟩
      calc |(iterUpdate st sid sig v n (sid ++ ":" ++ sig)).mean - v|
          ≤ (9/10) ^ n * |(st (sid ++ ":" ++ sig)).mean - v| :=
            iterUpdate_dist_geom st sid sig v n
        _ = 0 := by rw [← h0, mul_zero]
    · obtain ⟨N, hN⟩ :=
        exists_pow_lt_of_lt_one (x := ε / |(st (sid ++ ":" ++ sig)).mean - v|)
          (div_pos hε h0) (by norm_num : (9:ℚ)/10 < 1)
      refine ⟨N, fun n hn => ?_⟩
      have h1 : |(iterUpdate st sid sig v n (sid ++ ":" ++ sig)).mean - v| ≤
          |(iterUpdate st sid sig v N (sid ++ ":" ++ sig)).mean - v| :=
        iterUpdate_dist_anti st sid sig v N n hn
      have h2 : |(iterUpdate st sid sig v N (sid ++ ":" ++ sig)).mean - v| ≤
          (9/10) ^ N * |(st (sid ++ ":" ++ sig)).mean - v| :=
        iterUpdate_dist_geom st sid sig v N
      have h3 : (9/10 : ℚ) ^ N * |(st (sid ++ ":" ++ sig)).mean - v| < ε := by
        have := mul_lt_mul_of_pos_right hN h0
        rwa [div_mul_cancel₀] at this
        exact ne_of_gt h0
      linarith

/-- Witness for baseline_convergence: the fresh detector, constant value
3, tolerance 1/1000. -/
theorem baseline_convergence_witness :
    (|(iterUpdate initBaselines "s" "cpu_usage" (3:ℚ) 1 ("s" ++ ":" ++ "cpu_usage")).mean - 3| ≤
      |(iterUpdate initBaselines "s" "cpu_usage" (3:ℚ) 0 ("s" ++ ":" ++ "cpu_usage")).mean - 3|) ∧
    (∃ N : ℕ, ∀ n : ℕ, N ≤ n →
      |(iterUpdate initBaselines "s" "cpu_usage" (3:ℚ) n ("s" ++ ":" ++ "cpu_usage")).mean - 3| <
        1/1000) :=
  ⟨(baseline_convergence initBaselines "s" "cpu_usage" 3).1 0,
   (baseline_convergence initBaselines "s" "cpu_usage" 3).2 (1/1000) (by norm_num)⟩

/-- C1: the escalation decision returned by evaluate is true exactly when
some returned triggered rule has severity alert or critical, and a sample
whose triggered rules are all warnings never escalates. -/
theorem escalation_gating (sid did : String) (p : Package) (anomalies : List Anomaly) :
    ((evaluate sid did p anomalies).2 = true ↔
      ∃ r ∈ (evaluate sid did p anomalies).1,
        r.severity = "alert" ∨ r.severity = "critical") ∧
    ((∀ r ∈ (evaluate sid did p anomalies).1, r.severity = "warning") →
      (evaluate sid did p anomalies).2 = false) := by
  constructor
  · show shouldEscalate (triggeredRulesOf p anomalies) = true ↔ _
    simp only [shouldEscalate, List.any_eq_true, Bool.or_eq_true, decide_eq_true_eq]
    exact Iff.rfl
  · intro h
    show shouldEscalate (triggeredRulesOf p anomalies) = false
    simp only [shouldEscalate, List.any_eq_false]
    intro r hr
    have hw := h r hr
    rw [hw]
    decide

/-- A package that fires only the warning-severity Distraction Burst
rule: 20 app switches with focus score 0.1 and no anomalies. -/
def warnOnlyPackage : Package :=
  { timestamp := 0, focus_score := 1/10, app_switches := 20 }

/-- Witness for escalation_gating: all rules triggered for
warnOnlyPackage carry severity warning, and the decision is false. -/
theorem escalation_gating_witness :
    (∀ r ∈ (evaluate "s" "d" warnOnlyPackage []).1, r.severity = "warning") ∧
    (evaluate "s" "d" warnOnlyPackage []).2 = false :=
  ⟨by with_unfolding_all decide,
   (escalation_gating "s" "d" warnOnlyPackage []).2 (by with_unfolding_all decide)⟩

/-- The mutable state owned by a RulesEngine instance in the source: its
own AnomalyDetector baselines and AggregationEngine windows.  evaluate
reads neither. -/
structure RulesEngineState where
  anomaly_detector : Baselines
  agg_engine : AggregationEngineState

/-- RulesEngine.evaluate as a state transformer on the engine state: the
source method reads only its arguments and the constant RULES table, so
the state passes through unchanged. -/
def evaluateSt (st : RulesEngineState) (session_id device_id : String)
    (package : Package) (anomalies : List Anomaly) :
    RulesEngineState × (List TriggeredRule × Bool) :=
  (st, evaluate session_id device_id package anomalies)

/-- C9: evaluate is pure and stateless: it leaves the engine state (all
windows and baselines) unchanged, and for a fixed sample and anomaly list
a repeated call, or a call from any other state, returns the identical
triggered rules and escalation decision. -/
theorem evaluate_pure (st : RulesEngineState) (sid did : String) (p : Package)
    (anomalies : List Anomaly) :
    (evaluateSt st sid did p anomalies).1 = st ∧
    (evaluateSt (evaluateSt st sid did p anomalies).1 sid did p anomalies).2 =
      (evaluateSt st sid did p anomalies).2 ∧
    (∀ st2 : RulesEngineState,
      (evaluateSt st2 sid did p anomalies).2 = (evaluateSt st sid did p anomalies).2) :=
  ⟨rfl, rfl, fun _ => rfl⟩

/-- Scenario A of the spec: CPU at 92 percent, focus 0.82, all other
signals at their neutral defaults (network below threshold). -/
def scenarioA : Package :=
  { timestamp := 0, cpu_usage := 92, focus_score := 82/100 }

/-- C2 counterexample: on Scenario A the pipeline escalation decision is
true, not false as claimed — the Resource Spike rule it fires is
configured with severity alert, which passes the escalation gate. -/
theorem scenario_a_counterexample :
    ¬((processPackageCore initPipelineState "s" "d" scenarioA).2.2.2 = false) := by
  with_unfolding_all decide

lemma detectCpu_map_medium (st : Baselines) (sid : String) (p : Package)
    (h1 : ANOMALY_THRESHOLDS.cpu_usage_high < p.cpu_usage)
    (h2 : ¬ (95:ℚ) < p.cpu_usage) :
    ((detectCpu st sid p).2).map (fun a => (a.signal_name, a.severity)) =
      [("cpu_usage", "medium")] := by
  unfold detectCpu
  dsimp only
  rw [if_pos h1]
  simp [if_neg h2]

lemma detectFocus_nil (st : Baselines) (sid : String) (p : Package)
    (h : ¬ p.focus_score < ANOMALY_THRESHOLDS.focus_score_low) :
    (detectFocus st sid p).2 = [] := by
  unfold detectFocus
  dsimp only
  rw [if_neg h]

lemma detectNetwork_nil (st : Baselines) (sid : String) (p : Package)
    (h : ¬ ANOMALY_THRESHOLDS.network_bytes_30s_high < p.bytes_sent + p.bytes_received) :
    (detectNetwork st sid p).2 = [] := by
  unfold detectNetwork
  dsimp only
  rw [if_neg h]

lemma detectKeystroke_nil (st : Baselines) (sid : String) (p : Package)
    (h : ¬ ANOMALY_THRESHOLDS.keystroke_rhythm_variance_high < p.keystroke_rhythm_variance) :
    (detectKeystroke st sid p).2 = [] := by
  unfold detectKeystroke
  dsimp only
  rw [if_neg h]

lemma detect_anomalies_snd (st : Baselines) (sid : String) (p : Package) :
    (detect_anomalies st sid p).2 =
      (detectCpu st sid p).2 ++
      (detectFocus (detectCpu st sid p).1 sid p).2 ++
      (detectNetwork (detectFocus (detectCpu st sid p).1 sid p).1 sid p).2 ++
      (detectKeystroke
        (detectNetwork (detectFocus (detectCpu st sid p).1 sid p).1 sid p).1 sid p).2 := rfl

/-- C2 amended: for a Scenario A sample (cpu 92, focus 0.82, network at or
below threshold, keystroke variance at or below threshold), from any
baseline state the detector emits exactly one CPU anomaly with severity
medium, evaluate fires exactly the Resource Spike rule, and the
escalation decision is true — the source configures Resource Spike with
severity alert, so the sample escalates. -/
theorem scenario_a_amended (st : Baselines) (sid did : String) (p : Package)
    (hcpu : p.cpu_usage = 92) (hfocus : p.focus_score = 82/100)
    (hnet : p.bytes_sent + p.bytes_received ≤ ANOMALY_THRESHOLDS.network_bytes_30s_high)
    (hkey : p.keystroke_rhythm_variance ≤ ANOMALY_THRESHOLDS.keystroke_rhythm_variance_high) :
    ((detect_anomalies st sid p).2).map (fun a => (a.signal_name, a.severity)) =
      [("cpu_usage", "medium")] ∧
    ((evaluate sid did p (detect_anomalies st sid p).2).1).map (fun r => r.rule_id) =
      ["resource_spike"] ∧
    (evaluate sid did p (detect_anomalies st sid p).2).2 = true := by
  have h1 : ANOMALY_THRESHOLDS.cpu_usage_high < p.cpu_usage := by
    rw [hcpu]; show (90:ℚ) < 92; norm_num
  have h2 : ¬ (95:ℚ) < p.cpu_usage := by rw [hcpu]; norm_num
  have h3 : ¬ p.focus_score < ANOMALY_THRESHOLDS.focus_score_low := by
    rw [hfocus]; show ¬ (82/100:ℚ) < 3/10; norm_num
  have h4 : ¬ ANOMALY_THRESHOLDS.network_bytes_30s_high <
      p.bytes_sent + p.bytes_received := not_lt.mpr hnet
  have h5 : ¬ ANOMALY_THRESHOLDS.keystroke_rhythm_variance_high <
      p.keystroke_rhythm_variance := not_lt.mpr hkey
  have hdet : ∀ st0 : Baselines,
      ((detect_anomalies st0 sid p).2).map (fun a => (a.signal_name, a.severity)) =
        [("cpu_usage", "medium")] := by
    intro st0
    rw [detect_anomalies_snd, detectFocus_nil _ _ _ h3, detectNetwork_nil _ _ _ h4,
      detectKeystroke_nil _ _ _ h5, List.append_nil, List.append_nil, List.append_nil]
    exact detectCpu_map_medium st0 sid p h1 h2
  refine ⟨hdet st, ?_, ?_⟩
  · have hmap := hdet st
    rcases hsplit : (detect_anomalies st sid p).2 with _ | ⟨a, rest⟩
    · rw [hsplit] at hmap; simp at hmap
    · rw [hsplit] at hmap
      rcases rest with _ | ⟨b, rest2⟩
      · simp only [List.map_cons, List.map_nil, List.cons.injEq, and_true] at hmap
        have hsig : a.signal_name = "cpu_usage" := congrArg Prod.fst hmap
        have hsev : a.severity = "medium" := congrArg Prod.snd hmap
        show (triggeredRulesOf p [a]).map (fun r => r.rule_id) = ["resource_spike"]
        unfold triggeredRulesOf
        dsimp only
        have hnc3 : ¬(ANOMALY_THRESHOLDS.keystroke_rhythm_variance_high <
            p.keystroke_rhythm_variance ∧ (20:ℚ) < p.mouse_idle_duration) :=
          fun hc => h5 hc.1
        rw [if_neg hnc3]
        rcases lt_or_le ANOMALY_THRESHOLDS.app_switches_per_minute_high p.app_switches with
          hsw | hsw
        · rw [if_pos hsw, if_neg h3]
          simp [hsig]
        · rw [if_neg (not_lt.mpr hsw)]
          simp [hsig]
      · rw [List.map_cons, List.map_cons] at hmap
        exact absurd hmap (by simp)
  · have hmap := hdet st
    rcases hsplit : (detect_anomalies st sid p).2 with _ | ⟨a, rest⟩
    · rw [hsplit] at hmap; simp at hmap
    · rw [hsplit] at hmap
      rcases rest with _ | ⟨b, rest2⟩
      · simp only [List.map_cons, List.map_nil, List.cons.injEq, and_true] at hmap
        have hsig : a.signal_name = "cpu_usage" := congrArg Prod.fst hmap
        show shouldEscalate (triggeredRulesOf p [a]) = true
        unfold triggeredRulesOf
        dsimp only
        simp [shouldEscalate, RULES, hsig]
      · rw [List.map_cons, List.map_cons] at hmap
        exact absurd hmap (by simp)

/-- Witness for scenario_a_amended at the concrete Scenario A package and
the fresh pipeline state. -/
theorem scenario_a_amended_witness :
    (scenarioA.cpu_usage = 92 ∧ scenarioA.focus_score = 82/100 ∧
      scenarioA.bytes_sent + scenarioA.bytes_received ≤
        ANOMALY_THRESHOLDS.network_bytes_30s_high ∧
      scenarioA.keystroke_rhythm_variance ≤
        ANOMALY_THRESHOLDS.keystroke_rhythm_variance_high) ∧
    ((detect_anomalies initBaselines "s" scenarioA).2).map
        (fun a => (a.signal_name, a.severity)) = [("cpu_usage", "medium")] ∧
    ((evaluate "s" "d" scenarioA (detect_anomalies initBaselines "s" scenarioA).2).1).map
        (fun r => r.rule_id) = ["resource_spike"] ∧
    (evaluate "s" "d" scenarioA (detect_anomalies initBaselines "s" scenarioA).2).2 = true :=
  ⟨⟨rfl, rfl, by with_unfolding_all decide, by with_unfolding_all decide⟩,
   scenario_a_amended initBaselines "s" "d" scenarioA rfl rfl
     (by with_unfolding_all decide) (by with_unfolding_all decide)⟩

lemma compute_z_score_fst_ne (st : Baselines) (sid sig : String) (v : ℚ)
    (k : String) (h : k ≠ sid ++ ":" ++ sig) :
    (compute_z_score st sid sig v).1 k = st k := by
  unfold compute_z_score
  dsimp only
  split
  · exact updateFun_apply_ne _ _ _ _ h
  · rfl

lemma detectCpu_fst_ne (st : Baselines) (sid : String) (p : Package) (k : String)
    (h : k ≠ sid ++ ":" ++ "cpu_usage") :
    (detectCpu st sid p).1 k = st k := by
  unfold detectCpu
  dsimp only
  rw [update_baseline_apply_ne _ _ _ _ _ h]
  split
  · exact compute_z_score_fst_ne st sid "cpu_usage" p.cpu_usage k h
  · rfl

lemma detectFocus_fst_ne (st : Baselines) (sid : String) (p : Package) (k : String)
    (h : k ≠ sid ++ ":" ++ "focus_score") :
    (detectFocus st sid p).1 k = st k := by
  unfold detectFocus
  dsimp only
  rw [update_baseline_apply_ne _ _ _ _ _ h]
  split
  · exact compute_z_score_fst_ne st sid "focus_score" p.focus_score k h
  · rfl

lemma detectNetwork_fst_ne (st : Baselines) (sid : String) (p : Package) (k : String)
    (h : k ≠ sid ++ ":" ++ "network_activity") :
    (detectNetwork st sid p).1 k = st k := by
  unfold detectNetwork
  dsimp only
  rw [update_baseline_apply_ne _ _ _ _ _ h]
  split
  · exact compute_z_score_fst_ne st sid "network_activity" (p.bytes_sent + p.bytes_received) k h
  · rfl

lemma detectKeystroke_fst_ne (st : Baselines) (sid : String) (p : Package) (k : String)
    (h : k ≠ sid ++ ":" ++ "keystroke_rhythm") :
    (detectKeystroke st sid p).1 k = st k := by
  unfold detectKeystroke
  dsimp only
  rw [update_baseline_apply_ne _ _ _ _ _ h]
  split
  · exact compute_z_score_fst_ne st sid "keystroke_rhythm" p.keystroke_rhythm_variance k h
  · rfl

lemma detect_anomalies_fst_ne (st : Baselines) (sid : String) (p : Package) (k : String)
    (h1 : k ≠ sid ++ ":" ++ "cpu_usage") (h2 : k ≠ sid ++ ":" ++ "focus_score")
    (h3 : k ≠ sid ++ ":" ++ "network_activity") (h4 : k ≠ sid ++ ":" ++ "keystroke_rhythm") :
    (detect_anomalies st sid p).1 k = st k := by
  show (detectKeystroke (detectNetwork (detectFocus (detectCpu st sid p).1 sid p).1
    sid p).1 sid p).1 k = st k
  rw [detectKeystroke_fst_ne _ _ _ _ h4, detectNetwork_fst_ne _ _ _ _ h3,
    detectFocus_fst_ne _ _ _ _ h2, detectCpu_fst_ne _ _ _ _ h1]

/-- The package used to exhibit cross-device baseline sharing: a CPU
reading above the threshold. -/
def crossPackage : Package := { timestamp := 0, cpu_usage := 92 }

/-- C3 counterexample: baselines are keyed by session and signal only, so
processing a sample for session key ("s", "d1") changes the anomalies
later reported for the distinct session key ("s", "d2"): the fresh
pipeline reports a CPU anomaly with z-score 92 for ("s", "d2"), but after
("s", "d1") was processed the same sample for ("s", "d2") yields z-score
0 against the baseline ("s", "d1") wrote. -/
theorem session_partition_counterexample :
    (processPackageCore (processPackageCore initPipelineState "s" "d1" crossPackage).1
        "s" "d2" crossPackage).2.1 ≠
      (processPackageCore initPipelineState "s" "d2" crossPackage).2.1 := by
  with_unfolding_all decide

/-- C3 amended: processing a sample for session key (sid, did) modifies
the aggregation windows only at the window key "sid:did", and the
baselines only at the four keys "sid:signal" of its own session — windows
are partitioned by (session_id, device_id), while baselines are
partitioned by session_id alone and are shared by all devices of one
session. -/
theorem session_partition_amended (st : PipelineState) (sid did : String) (p : Package) :
    (∀ k, k ≠ sid ++ ":" ++ did →
      (processPackageCore st sid did p).1.agg_engine.windows_30s k =
          st.agg_engine.windows_30s k ∧
      (processPackageCore st sid did p).1.agg_engine.windows_60s k =
          st.agg_engine.windows_60s k ∧
      (processPackageCore st sid did p).1.agg_engine.windows_5m k =
          st.agg_engine.windows_5m k) ∧
    (∀ k, k ∉ [sid ++ ":" ++ "cpu_usage", sid ++ ":" ++ "focus_score",
        sid ++ ":" ++ "network_activity", sid ++ ":" ++ "keystroke_rhythm"] →
      (processPackageCore st sid did p).1.anomaly_detector k = st.anomaly_detector k) := by
  constructor
  · intro k hk
    refine ⟨?_, ?_, ?_⟩ <;>
      exact updateFun_apply_ne _ _ _ _ hk
  · intro k hk
    simp only [List.mem_cons, List.not_mem_nil, or_false, not_or] at hk
    exact detect_anomalies_fst_ne st.anomaly_detector sid p k hk.1 hk.2.1 hk.2.2.1 hk.2.2.2

/-- Witness for session_partition_amended: concrete distinct keys. -/
theorem session_partition_amended_witness :
    (processPackageCore initPipelineState "s" "d1" crossPackage).1.agg_engine.windows_30s
        ("s" ++ ":" ++ "d2") =
      initPipelineState.agg_engine.windows_30s ("s" ++ ":" ++ "d2") ∧
    (processPackageCore initPipelineState "s" "d1" crossPackage).1.anomaly_detector
        ("t" ++ ":" ++ "cpu_usage") =
      initPipelineState.anomaly_detector ("t" ++ ":" ++ "cpu_usage") :=
  ⟨((session_partition_amended initPipelineState "s" "d1" crossPackage).1
      ("s" ++ ":" ++ "d2") (by with_unfolding_all decide)).1,
   (session_partition_amended initPipelineState "s" "d1" crossPackage).2
      ("t" ++ ":" ++ "cpu_usage") (by with_unfolding_all decide)⟩

/-- A fresh window of duration D after ingesting a sequence of samples in
order, as AggregationEngine does one ingest call per sample. -/
def ingestAll (D : ℚ) (entries : List (ℚ × Package)) : AggregationWindow :=
  entries.foldl (fun w e => w.add e.1 e.2) { window_size := D, buffer := [] }

lemma filter_ge_eq_self (c : ℚ) :
    ∀ l : List (ℚ × Package), (∀ e ∈ l, c ≤ e.1) →
      l.filter (fun e => decide (c ≤ e.1)) = l := by
  intro l
  induction l with
  | nil => intro _; rfl
  | cons e t ih =>
    intro hall
    have he : c ≤ e.1 := hall e (List.mem_cons_self e t)
    simp only [List.filter_cons, decide_eq_true_eq, if_pos he]
    rw [ih (fun b hb => hall b (List.mem_cons_of_mem e hb))]

lemma dropWhile_eq_filter_of_sorted (c : ℚ) :
    ∀ l : List (ℚ × Package), List.Pairwise (fun a b => a.1 ≤ b.1) l →
      l.dropWhile (fun e => decide (e.1 < c)) = l.filter (fun e => decide (c ≤ e.1)) := by
  intro l
  induction l with
  | nil => intro _; rfl
  | cons e t ih =>
    intro hsorted
    rcases List.pairwise_cons.mp hsorted with ⟨hall, htail⟩
    by_cases he : e.1 < c
    · rw [List.dropWhile_cons_of_pos (by simpa using he),
        List.filter_cons_of_neg (by simpa using not_le.mpr he)]
      exact ih htail
    · rw [List.dropWhile_cons_of_neg (by simpa using he),
        List.filter_cons_of_pos (by simpa using not_lt.mp he)]
      rw [filter_ge_eq_self c t (fun b hb => le_trans (not_lt.mp he) (hall b hb))]

lemma foldl_add_window_size :
    ∀ (entries : List (ℚ × Package)) (w : AggregationWindow),
      (entries.foldl (fun w e => w.add e.1 e.2) w).window_size = w.window_size := by
  intro entries
  induction entries with
  | nil => intro w; rfl
  | cons e t ih => intro w; exact ih (w.add e.1 e.2)

lemma ingestAll_window_size (D : ℚ) (entries : List (ℚ × Package)) :
    (ingestAll D entries).window_size = D :=
  foldl_add_window_size entries _

lemma ingestAll_buffer (D : ℚ) (hD : 0 ≤ D) :
    ∀ (l : List (ℚ × Package)) (x : ℚ × Package),
      List.Pairwise (fun a b => a.1 < b.1) (l ++ [x]) →
      (ingestAll D (l ++ [x])).buffer =
        (l ++ [x]).filter (fun e => decide (x.1 - D ≤ e.1)) := by
  intro l
  induction l using List.reverseRecOn with
  | nil =>
    intro x _
    show (AggregationWindow.add { window_size := D, buffer := [] } x.1 x.2).buffer = _
    unfold AggregationWindow.add
    dsimp only
    rw [List.nil_append, List.dropWhile_cons_of_neg
      (by simp only [decide_eq_true_eq]; push_neg; linarith),
      List.filter_cons_of_pos (by simp only [decide_eq_true_eq]; linarith),
      List.filter_nil]
  | append_singleton l' y ih =>
    intro x hsorted
    have hsorted' : List.Pairwise (fun a b => a.1 < b.1) (l' ++ [y]) :=
      (List.pairwise_append.mp hsorted).1
    have hyx : y.1 < x.1 := by
      rcases List.pairwise_append.mp hsorted with ⟨_, _, hcross⟩
      exact hcross y (by simp) x (by simp)
    have hstep : ingestAll D (l' ++ [y] ++ [x]) =
        (ingestAll D (l' ++ [y])).add x.1 x.2 := by
      unfold ingestAll
      rw [List.foldl_append]
      rfl
    rw [hstep]
    unfold AggregationWindow.add
    dsimp only
    rw [ingestAll_window_size]
    simp only [Prod.mk.eta]
    rw [ih y hsorted']
    have hallx : ∀ e ∈ (l' ++ [y]).filter (fun e => decide (y.1 - D ≤ e.1)),
        e.1 < x.1 := by
      intro e he
      have hmem := List.mem_of_mem_filter he
      rcases List.pairwise_append.mp hsorted with ⟨_, _, hcross⟩
      exact hcross e hmem x (by simp)
    have hsorted_f : List.Pairwise (fun a b => (a.1 : ℚ) ≤ b.1)
        ((l' ++ [y]).filter (fun e => decide (y.1 - D ≤ e.1)) ++ [x]) := by
      apply List.pairwise_append.mpr
      refine ⟨(List.Pairwise.filter _ hsorted').imp le_of_lt, List.pairwise_singleton _ _, ?_⟩
      intro a ha b hb
      rw [List.mem_singleton.mp hb]
      exact le_of_lt (hallx a ha)
    rw [dropWhile_eq_filter_of_sorted (x.1 - D) _ hsorted_f]
    have hxkeep : [x].filter (fun e => decide (x.1 - D ≤ e.1)) = [x] := by
      rw [List.filter_cons_of_pos (by simp only [decide_eq_true_eq]; linarith), List.filter_nil]
    have hcomb : ((l' ++ [y]).filter (fun e => decide (y.1 - D ≤ e.1))).filter
        (fun e => decide (x.1 - D ≤ e.1)) =
        (l' ++ [y]).filter (fun e => decide (x.1 - D ≤ e.1)) := by
      rw [List.filter_filter]
      apply List.filter_congr
      intro e _
      by_cases hx : x.1 - D ≤ e.1
      · have hy2 : y.1 - D ≤ e.1 := le_trans (by linarith) hx
        simp [hx, hy2]
      · simp [hx]
    have hsplit2 : ((l' ++ [y]).filter (fun e => decide (y.1 - D ≤ e.1)) ++ [x]).filter
        (fun e => decide (x.1 - D ≤ e.1)) =
        ((l' ++ [y]).filter (fun e => decide (y.1 - D ≤ e.1))).filter
          (fun e => decide (x.1 - D ≤ e.1)) ++
        [x].filter (fun e => decide (x.1 - D ≤ e.1)) := List.filter_append _ _
    have hsplit3 : (l' ++ [y] ++ [x]).filter (fun e => decide (x.1 - D ≤ e.1)) =
        (l' ++ [y]).filter (fun e => decide (x.1 - D ≤ e.1)) ++
        [x].filter (fun e => decide (x.1 - D ≤ e.1)) := List.filter_append _ _
    rw [hsplit2, hsplit3, hxkeep, hcomb]

/-- C5: after ingesting a strictly increasing sequence of timestamped
samples into a fresh window of duration D, the buffer holds exactly the
ingested entries whose timestamp lies in the closed interval from T - D
to T, where T is the timestamp of the last (current) sample. -/
theorem window_eviction (D : ℚ) (l : List (ℚ × Package)) (x : ℚ × Package)
    (hD : 0 ≤ D)
    (hsorted : List.Pairwise (fun a b => a.1 < b.1) (l ++ [x])) :
    (ingestAll D (l ++ [x])).buffer =
      (l ++ [x]).filter (fun e => decide (x.1 - D ≤ e.1 ∧ e.1 ≤ x.1)) := by
  rw [ingestAll_buffer D hD l x hsorted]
  apply List.filter_congr
  intro e he
  have hle : e.1 ≤ x.1 := by
    rcases List.mem_append.mp he with hl | hx
    · rcases List.pairwise_append.mp hsorted with ⟨_, _, hcross⟩
      exact le_of_lt (hcross e hl x (by simp))
    · rw [List.mem_singleton.mp hx]
  by_cases hc : x.1 - D ≤ e.1
  · simp [hc, hle]
  · simp [hc]

/-- A package with all-default metrics, used as payload in the window
witness. -/
def basePackage : Package := { timestamp := 0 }

/-- Witness for window_eviction: duration 30, timestamps 0, 25, 40; after
the sample at 40 the buffer holds exactly the entries at 25 and 40. -/
theorem window_eviction_witness :
    (0:ℚ) ≤ 30 ∧
    List.Pairwise (fun a b => a.1 < b.1)
      ([((0:ℚ), basePackage), (25, basePackage)] ++ [((40:ℚ), basePackage)]) ∧
    (ingestAll 30 ([((0:ℚ), basePackage), (25, basePackage)] ++ [((40:ℚ), basePackage)])).buffer =
      ([((0:ℚ), basePackage), (25, basePackage)] ++ [((40:ℚ), basePackage)]).filter
        (fun e => decide (((40:ℚ), basePackage).1 - 30 ≤ e.1 ∧ e.1 ≤ ((40:ℚ), basePackage).1)) :=
  ⟨by norm_num, by with_unfolding_all decide,
   window_eviction 30 [((0:ℚ), basePackage), (25, basePackage)] ((40:ℚ), basePackage)
     (by norm_num) (by with_unfolding_all decide)⟩

/-- A sample producing four anomalies whose detection order differs from
their ranking by percentile_anomaly score: cpu (1), focus (9/10),
network (3/10), keystroke (4/5). -/
def c8Package : Package :=
  { timestamp := 0
    cpu_usage := 92
    focus_score := 1/10
    bytes_sent := 15 * 1024 * 1024
    keystroke_rhythm_variance := 4/5 }

/-- C8 counterexample: the c8Package sample escalates, yet the payload's
dominant anomalies are the first three anomalies in detection order
(cpu, focus, network), not the top three ranked by percentile_anomaly
score (cpu, focus, keystroke): the network anomaly scores 3/10 while the
excluded keystroke anomaly scores 4/5. -/
theorem dominant_top3_counterexample :
    (evaluate "s" "d" c8Package (detect_anomalies initBaselines "s" c8Package).2).2 = true ∧
    (composite_anomaly_score
        (detect_anomalies initBaselines "s" c8Package).2).dominant_anomalies ≠
      dominantTop3Spec (detect_anomalies initBaselines "s" c8Package).2 := by
  constructor
  · with_unfolding_all decide
  · with_unfolding_all decide

lemma anoms_nonempty_of_escalate (p : Package) (anoms : List Anomaly)
    (hesc : shouldEscalate (triggeredRulesOf p anoms) = true) : anoms ≠ [] := by
  intro hnil
  subst hnil
  revert hesc
  unfold triggeredRulesOf shouldEscalate
  dsimp only
  simp only [List.any_nil, Bool.false_eq_true, if_false, List.nil_append, List.append_nil]
  split_ifs <;> simp [RULES]

/-- C8 amended: whenever a sample escalates, its anomaly list is
nonempty, the payload's composite overall score is the arithmetic mean of
the anomalies' percentile_anomaly values, and the payload's dominant
anomalies are the signal names of the first three anomalies in detection
order (the source slice anomalies[:3]), not the top three by score. -/
theorem escalation_payload_amended (st : Baselines) (sid did : String) (p : Package)
    (hesc : (evaluate sid did p (detect_anomalies st sid p).2).2 = true) :
    (detect_anomalies st sid p).2 ≠ [] ∧
    (composite_anomaly_score (detect_anomalies st sid p).2).overall_score =
      (((detect_anomalies st sid p).2).map (fun a => a.percentile_anomaly)).sum /
        (((detect_anomalies st sid p).2).length : ℚ) ∧
    (composite_anomaly_score (detect_anomalies st sid p).2).dominant_anomalies =
      (((detect_anomalies st sid p).2).take 3).map (fun a => a.signal_name) := by
  have hne : (detect_anomalies st sid p).2 ≠ [] :=
    anoms_nonempty_of_escalate p (detect_anomalies st sid p).2 hesc
  refine ⟨hne, ?_, rfl⟩
  unfold composite_anomaly_score
  dsimp only
  rw [if_neg hne]
  unfold statisticsMean
  rw [List.length_map]

/-- Witness for escalation_payload_amended at the concrete c8Package run
from the fresh detector. -/
theorem escalation_payload_amended_witness :
    (evaluate "s" "d" c8Package (detect_anomalies initBaselines "s" c8Package).2).2 = true ∧
    (composite_anomaly_score (detect_anomalies initBaselines "s" c8Package).2).overall_score =
      (((detect_anomalies initBaselines "s" c8Package).2).map
        (fun a => a.percentile_anomaly)).sum /
        (((detect_anomalies initBaselines "s" c8Package).2).length : ℚ) :=
  ⟨by with_unfolding_all decide,
   (escalation_payload_amended initBaselines "s" "d" c8Package
     (by with_unfolding_all decide)).2.1⟩
